import Mathlib

set_option autoImplicit false

/-!
# MeetingMinute (MinuteMate) — verification of the specification against the code

Shallow embedding of the MinuteMate meeting-capture backend:

* `app/services/job_manager.py` — the in-process job registry (`JobManager`);
* `app/services/transcribe.py` — the transcription client (`transcribe_audio`);
* `app/services/storage.py` — the file storage helper (`save_file`, `get_file_path`);
* `app/api/users.py` — user registration (`register_user`);
* `app/api/artifacts.py` — artifact upload (`upload_artifact`);
* `app/api/google_bot.py`, `app/api/teams_bot.py`, `app/api/zoom_bot.py` —
  the three platform bot-job APIs (start / cancel / status) and the
  background completion update performed after the worker process exits;
* `app/models/user.py`, `app/models/artifact.py`, `backend/app/models/job.py` —
  the document schemas.

External effects are made explicit: the document store is a list of records
threaded through each operation, the filesystem is a finite map from path
strings to byte lists, timestamps are integers (seconds, UTC), and the
outcome of the one outbound HTTP call is a parameter.
-/

namespace MinuteMate

/-! ## Document schemas (`app/models/user.py`, `backend/app/models/job.py`) -/

/-- `app/models/user.py` — `class User(Document)`.  The store-assigned
`ObjectId` is modelled as a natural number `id`. -/
structure User where
  id : Nat
  email : String
  full_name : String
  deriving Repr, DecidableEq

/-- `backend/app/models/job.py` — `class Job(Document)`.  `params` holds the
request snapshot `req.dict()` as key/value pairs; timestamps are UTC seconds. -/
structure Job where
  job_id : String
  email : String
  meeting_url : String
  status : String
  started_at : Option Int := none
  finished_at : Option Int := none
  params : Option (List (String × String)) := none
  save_dir : String
  transcript : Option String := none
  deriving Repr, DecidableEq

/-- A FastAPI `HTTPException(status_code, detail)`. -/
structure HTTPException where
  status_code : Nat
  detail : String
  deriving Repr, DecidableEq

/-! ## In-process job registry (`app/services/job_manager.py`) -/

/-- A `subprocess.Popen` handle, reduced to the one observation the registry
makes of it: `poll()` returns `None` exactly when the process has not exited. -/
structure Proc where
  exited : Bool
  deriving Repr, DecidableEq

/-- `JobManager.__init__`: `self.jobs = {}` (job id → process handle) and
`self.cancelled = set()`.  The dict is an association list, the set a list
with membership-checked insertion. -/
structure JobManager where
  jobs : List (String × Proc)
  cancelled : List String
  deriving Repr, DecidableEq

/-- `self.jobs.get(job_id)` / `self.jobs.pop(job_id, None)` lookup. -/
def lookupProc (l : List (String × Proc)) (job_id : String) : Option Proc :=
  (l.find? (fun p => p.1 == job_id)).map Prod.snd

/-- `JobManager.add`: `self.jobs[job_id] = process` (dict assignment replaces
any existing entry for the key). -/
def JobManager.add (m : JobManager) (job_id : String) (process : Proc) : JobManager :=
  { m with jobs := m.jobs.filter (fun p => p.1 ≠ job_id) ++ [(job_id, process)] }

/-- Result of `JobManager.cancel`: the returned boolean, whether
`proc.terminate()` was invoked, and the registry state afterwards. -/
structure CancelResult where
  found : Bool
  terminated : Bool
  state : JobManager
  deriving Repr, DecidableEq

/-- `JobManager.cancel`:
`proc = self.jobs.pop(job_id, None)`;
`if proc and proc.poll() is None: proc.terminate()`;
`self.cancelled.add(job_id)`;
`return True if proc else False`. -/
def JobManager.cancel (m : JobManager) (job_id : String) : CancelResult :=
  let proc := lookupProc m.jobs job_id
  let jobs1 := m.jobs.filter (fun p => p.1 ≠ job_id)
  let terminated := match proc with
    | some p => !p.exited
    | none => false
  let cancelled1 := if job_id ∈ m.cancelled then m.cancelled else m.cancelled ++ [job_id]
  { found := proc.isSome
    terminated := terminated
    state := { jobs := jobs1, cancelled := cancelled1 } }

/-- `JobManager.get_status`: cancelled set first, then map membership, then
`poll()`. -/
def JobManager.get_status (m : JobManager) (job_id : String) : String :=
  if job_id ∈ m.cancelled then "cancelled"
  else
    match lookupProc m.jobs job_id with
    | none => "not_found"
    | some proc => if !proc.exited then "running" else "finished"

/-! ## Transcription client (`app/services/transcribe.py`) -/

/-- Outcome of the body of the `try:` block in `transcribe_audio`: either the
`requests.post` call produced a response (status code and body text), or some
step raised — opening the audio file, or the request itself — with the
exception rendered to a message string. -/
inductive RequestOutcome where
  | ok (status_code : Nat) (text : String)
  | exn (message : String)
  deriving Repr, DecidableEq

/-- Python's `str.strip()`: remove leading and trailing whitespace. -/
def pyStrip (s : String) : String :=
  String.mk (((s.data.dropWhile Char.isWhitespace).reverse.dropWhile
    Char.isWhitespace).reverse)

/-- `transcribe_audio`: `api_key` is `os.getenv("OPENAI_API_KEY")` (absent or
empty is falsy); `call` is the outcome of the `try:` block.  Every branch
returns a `String`, so the function never raises to its caller. -/
def transcribe_audio (api_key : Option String) (call : RequestOutcome) : String :=
  match api_key with
  | none => "OpenAI API key not provided"
  | some key =>
    if key == "" then "OpenAI API key not provided"
    else
      match call with
      | .ok status_code text =>
        if status_code == 200 then pyStrip text
        else "API error " ++ toString status_code ++ ": " ++ text
      | .exn message => "Transcription error: " ++ message

/-! ## File storage (`app/services/storage.py`) -/

/-- `BASE_PATH = Path(os.getenv("STORAGE_PATH", "/backend/storage"))`, taken at
its default. -/
def BASE_PATH : String := "/backend/storage"

/-- `pathlib`'s `/` operator on a relative child component. -/
def pathJoin (parent child : String) : String := parent ++ "/" ++ child

/-- `save_file` accepts `Union[bytes, str]`. -/
inductive FileContent where
  | bytes (b : List Nat)
  | text (s : String)
  deriving Repr, DecidableEq

/-- `content.encode("utf-8")`, bytes as naturals below 256. -/
def encodeUTF8 (s : String) : List Nat := s.toUTF8.toList.map (fun b => b.toNat)

/-- The filesystem as a finite map from absolute path strings to byte lists. -/
abbrev FileSystem := List (String × List Nat)

/-- `open(file_path, "wb")` + `f.write(content)`: overwrite whatever was at
the path (intermediate directories are implicit in this model). -/
def fsWrite (fs : FileSystem) (path : String) (content : List Nat) : FileSystem :=
  fs.filter (fun p => p.1 ≠ path) ++ [(path, content)]

/-- Read back a file, for stating what `save_file` wrote. -/
def fsRead (fs : FileSystem) (path : String) : Option (List Nat) :=
  (fs.find? (fun p => p.1 == path)).map Prod.snd

/-- `save_file(user_id, meeting_id, artifact_type, file_name, content)`:
build `BASE_PATH / user_id / meeting_id / artifact_type / file_name`, encode
text as UTF-8, overwrite the file, return the path as a string. -/
def save_file (fs : FileSystem) (user_id meeting_id artifact_type file_name : String)
    (content : FileContent) : String × FileSystem :=
  let artifact_dir := pathJoin (pathJoin (pathJoin BASE_PATH user_id) meeting_id) artifact_type
  let file_path := pathJoin artifact_dir file_name
  let data := match content with
    | .text s => encodeUTF8 s
    | .bytes b => b
  (file_path, fsWrite fs file_path data)

/-- `get_file_path(user_id, meeting_id, artifact_type, file_name)`: the same
path computation, without touching the filesystem. -/
def get_file_path (user_id meeting_id artifact_type file_name : String) : String :=
  pathJoin (pathJoin (pathJoin (pathJoin BASE_PATH user_id) meeting_id) artifact_type) file_name

/-! ## User registration (`app/api/users.py`) -/

/-- Split a character list at every occurrence of `c` (the shape of
`str.split`). -/
def splitChar (c : Char) : List Char → List (List Char)
  | [] => [[]]
  | a :: rest =>
    let r := splitChar c rest
    if a == c then [] :: r
    else
      match r with
      | [] => [[a]]
      | h :: t => (a :: h) :: t

/-- Modelled from the spec: the `EmailStr` form/parameter validation performed
by the framework before the handler body runs ("Email must conform to standard
address syntax; malformed input fails with InvalidInput before any lookup").
The pydantic validator itself is vendored third-party code, so only its
contract is modelled: one `@` sign, a non-empty local part, and a dotted,
non-empty domain. -/
def isValidEmail (e : String) : Bool :=
  match splitChar '@' e.data with
  | [localPart, domain] =>
    !localPart.isEmpty && !domain.isEmpty && domain.contains '.' &&
      domain.head? != some '.' && domain.getLast? != some '.'
  | _ => false

/-- The users collection plus the next store-assigned id. -/
structure UsersState where
  users : List User
  next_id : Nat
  deriving Repr, DecidableEq

/-- Response body of `POST /users/register`. -/
structure RegisterResponse where
  id : Nat
  email : String
  deriving Repr, DecidableEq

/-- `register_user(email, full_name)`: `EmailStr` validation first (422 from
the framework on malformed input, before the handler body), then
`User.find_one(User.email == email)`, then `HTTPException(400)` on a hit, else
insert and return `{id, email}`. -/
def register_user (st : UsersState) (email full_name : String) :
    Except HTTPException RegisterResponse × UsersState :=
  if !isValidEmail email then
    (.error { status_code := 422, detail := "value is not a valid email address" }, st)
  else
    match st.users.find? (fun u => u.email == email) with
    | some _ => (.error { status_code := 400, detail := "User already exists" }, st)
    | none =>
      let user : User := { id := st.next_id, email := email, full_name := full_name }
      (.ok { id := user.id, email := user.email },
        { users := st.users ++ [user], next_id := st.next_id + 1 })

/-! ## Artifact catalog (`app/api/artifacts.py`, `app/models/artifact.py`) -/

/-- `app/models/artifact.py` — `class Artifact(Document)`.  `user` is the
`Link[User]` by store id; `created_at` is a UTC timestamp. -/
structure Artifact where
  id : Nat
  user : Nat
  meeting_id : String
  artifact_type : String
  file_path : String
  created_at : Int
  deriving Repr, DecidableEq

/-- The `Literal["audio", "transcript", "summary", "screenshot"]` values
admitted by the `Artifact.artifact_type` field. -/
def artifactTypeValues : List String := ["audio", "transcript", "summary", "screenshot"]

/-- The artifacts collection plus the next store-assigned id. -/
structure ArtifactsState where
  artifacts : List Artifact
  next_id : Nat
  deriving Repr, DecidableEq

/-- Response body of `POST /artifacts/upload`. -/
structure UploadResponse where
  ok : Bool
  file_path : String
  artifact_id : Nat
  deriving Repr, DecidableEq

/-- `upload_artifact(email, meeting_id, artifact_type, file)`:
look the user up (`HTTPException(404)` if absent, before any write); read the
upload and `save_file` it; construct `Artifact(...)` — at which point the
pydantic `Literal` validation of `artifact_type` runs, an invalid value
raising out of the handler (a 500 response) after the file was already
written; on a valid type, insert the catalog row and return
`{ok, file_path, artifact_id}`. -/
def upload_artifact (users : UsersState) (st : ArtifactsState) (fs : FileSystem)
    (now : Int) (email meeting_id artifact_type file_name : String)
    (file_bytes : List Nat) :
    Except HTTPException UploadResponse × ArtifactsState × FileSystem :=
  match users.users.find? (fun u => u.email == email) with
  | none => (.error { status_code := 404, detail := "User not found" }, st, fs)
  | some user =>
    let saved := save_file fs (toString user.id) meeting_id artifact_type file_name
      (.bytes file_bytes)
    let file_path := saved.1
    let fs1 := saved.2
    if artifact_type ∈ artifactTypeValues then
      let artifact : Artifact :=
        { id := st.next_id, user := user.id, meeting_id := meeting_id
          artifact_type := artifact_type, file_path := file_path, created_at := now }
      (.ok { ok := true, file_path := file_path, artifact_id := artifact.id },
        { artifacts := st.artifacts ++ [artifact], next_id := st.next_id + 1 }, fs1)
    else
      (.error { status_code := 500, detail := "Internal Server Error" }, st, fs1)

/-! ## Bot job APIs (`app/api/google_bot.py`, `app/api/teams_bot.py`,
`app/api/zoom_bot.py`) -/

/-- `pytz.timezone("Asia/Karachi")` is UTC+5 (no daylight saving). -/
def KARACHI_UTC_OFFSET : Int := 5 * 3600

/-- A successfully parsed `datetime.fromisoformat(start_time)`: the wall-clock
instant in seconds plus the embedded UTC offset, `none` when the timestamp was
naive.  (A malformed string raises out of the handler and is outside this
model.) -/
structure ParsedDateTime where
  wall_seconds : Int
  tz_offset : Option Int
  deriving Repr, DecidableEq

/-- `start_dt.astimezone(pytz.UTC)` after
`pytz.timezone("Asia/Karachi").localize(start_dt)` on a naive value: the UTC
instant the parsed timestamp denotes. -/
def ParsedDateTime.toUtc (d : ParsedDateTime) : Int :=
  match d.tz_offset with
  | none => d.wall_seconds - KARACHI_UTC_OFFSET
  | some off => d.wall_seconds - off

/-- `BotJobRequest` of `app/api/google_bot.py` (defaults as in the source;
`start_time` carries the parsed timestamp). -/
structure BotJobRequest where
  email : String
  meeting_url : String
  duration : Int
  interval : Int
  save_dir : String
  window_width : Int
  window_height : Int
  leave_if_empty_secs : Int
  start_time : Option ParsedDateTime
  headless : Bool
  deriving Repr, DecidableEq

/-- `TeamsBotJobRequest` of `app/api/teams_bot.py` (same shape as the Google
request). -/
structure TeamsBotJobRequest where
  email : String
  meeting_url : String
  duration : Int
  interval : Int
  save_dir : String
  window_width : Int
  window_height : Int
  leave_if_empty_secs : Int
  start_time : Option ParsedDateTime
  headless : Bool
  deriving Repr, DecidableEq

/-- `ZoomBotJobRequest` of `app/api/zoom_bot.py`: meeting id + passcode +
display name instead of a URL. -/
structure ZoomBotJobRequest where
  email : String
  meeting_id : String
  passcode : String
  name : String
  duration : Int
  interval : Int
  save_dir : String
  window_width : Int
  window_height : Int
  leave_if_empty_secs : Int
  start_time : Option ParsedDateTime
  headless : Bool
  deriving Repr, DecidableEq

/-- `start_time` rendered for the `req.dict()` snapshot. -/
def renderStartTime (t : Option ParsedDateTime) : String :=
  match t with
  | none => "None"
  | some d => toString d.wall_seconds

/-- `req.dict()` for the Google request. -/
def BotJobRequest.dict (r : BotJobRequest) : List (String × String) :=
  [("email", r.email), ("meeting_url", r.meeting_url),
   ("duration", toString r.duration), ("interval", toString r.interval),
   ("save_dir", r.save_dir), ("window_width", toString r.window_width),
   ("window_height", toString r.window_height),
   ("leave_if_empty_secs", toString r.leave_if_empty_secs),
   ("start_time", renderStartTime r.start_time), ("headless", toString r.headless)]

/-- `req.dict()` for the Teams request. -/
def TeamsBotJobRequest.dict (r : TeamsBotJobRequest) : List (String × String) :=
  [("email", r.email), ("meeting_url", r.meeting_url),
   ("duration", toString r.duration), ("interval", toString r.interval),
   ("save_dir", r.save_dir), ("window_width", toString r.window_width),
   ("window_height", toString r.window_height),
   ("leave_if_empty_secs", toString r.leave_if_empty_secs),
   ("start_time", renderStartTime r.start_time), ("headless", toString r.headless)]

/-- `req.dict()` for the Zoom request. -/
def ZoomBotJobRequest.dict (r : ZoomBotJobRequest) : List (String × String) :=
  [("email", r.email), ("meeting_id", r.meeting_id), ("passcode", r.passcode),
   ("name", r.name), ("duration", toString r.duration),
   ("interval", toString r.interval), ("save_dir", r.save_dir),
   ("window_width", toString r.window_width),
   ("window_height", toString r.window_height),
   ("leave_if_empty_secs", toString r.leave_if_empty_secs),
   ("start_time", renderStartTime r.start_time), ("headless", toString r.headless)]

/-- The jobs collection. -/
abbrev JobsState := List Job

/-- `Job.find_one(Job.job_id == job_id)`. -/
def find_one (jobs : JobsState) (job_id : String) : Option Job :=
  jobs.find? (fun j => j.job_id == job_id)

/-- `Job.find_one(Job.job_id == job_id).update({"$set": ...})`: apply the
update to the first (in practice unique) matching document. -/
def updateOne (jobs : JobsState) (job_id : String) (f : Job → Job) : JobsState :=
  match jobs with
  | [] => []
  | j :: rest => if j.job_id == job_id then f j :: rest else j :: updateOne rest job_id f

/-- Success body of a start endpoint. -/
structure StartResponse where
  message : String
  job_id : String
  deriving Repr, DecidableEq

/-- Outcome of a start endpoint: the HTTP result, the jobs collection as
persisted at the moment the call returns, and the job ids whose background
task was scheduled (FastAPI runs background tasks only after the response is
produced, so `jobs` is the persisted state before any background work). -/
structure StartOutcome where
  response : Except HTTPException StartResponse
  jobs : JobsState
  background : List String
  deriving Repr

/-- `start_meeting_bot` (`POST /bot/start`): fresh `job_id` (passed in, with
its uniqueness as a hypothesis where needed); schedule-in-the-past check;
insert the Job as `pending`; immediately update it to `running` with
`started_at = datetime.utcnow()`; schedule `run_meeting_bot_threaded`; return
`{message, job_id}`. -/
def start_meeting_bot (now : Int) (job_id : String) (req : BotJobRequest)
    (jobs : JobsState) : StartOutcome :=
  let out_dir := pathJoin req.save_dir ("meeting_" ++ job_id)
  let past := match req.start_time with
    | some start_dt => decide (start_dt.toUtc < now)
    | none => false
  if past then
    { response := .error { status_code := 400, detail := "Scheduled time is in the past" }
      jobs := jobs, background := [] }
  else
    let job : Job :=
      { job_id := job_id, email := req.email, meeting_url := req.meeting_url
        status := "pending", params := some req.dict, save_dir := out_dir }
    let jobs1 := jobs ++ [job]
    let jobs2 := updateOne jobs1 job_id
      (fun j => { j with status := "running", started_at := some now })
    { response := .ok { message := "Bot started in background", job_id := job_id }
      jobs := jobs2, background := [job_id] }

/-- `start_teams_bot` (`POST /teamsbot/start`): same flow as the Google
endpoint. -/
def start_teams_bot (now : Int) (job_id : String) (req : TeamsBotJobRequest)
    (jobs : JobsState) : StartOutcome :=
  let out_dir := pathJoin req.save_dir ("meeting_" ++ job_id)
  let past := match req.start_time with
    | some start_dt => decide (start_dt.toUtc < now)
    | none => false
  if past then
    { response := .error { status_code := 400, detail := "Scheduled time is in the past" }
      jobs := jobs, background := [] }
  else
    let job : Job :=
      { job_id := job_id, email := req.email, meeting_url := req.meeting_url
        status := "pending", params := some req.dict, save_dir := out_dir }
    let jobs1 := jobs ++ [job]
    let jobs2 := updateOne jobs1 job_id
      (fun j => { j with status := "running", started_at := some now })
    { response := .ok { message := "Teams bot started in background", job_id := job_id }
      jobs := jobs2, background := [job_id] }

/-- `start_zoombot` (`POST /zoombot/start`): same flow; the stored meeting
reference is synthesized as `"zoom:" ++ meeting_id`. -/
def start_zoombot (now : Int) (job_id : String) (req : ZoomBotJobRequest)
    (jobs : JobsState) : StartOutcome :=
  let out_dir := pathJoin req.save_dir ("meeting_" ++ job_id)
  let past := match req.start_time with
    | some dt => decide (dt.toUtc < now)
    | none => false
  if past then
    { response := .error { status_code := 400, detail := "Scheduled time is in the past" }
      jobs := jobs, background := [] }
  else
    let job : Job :=
      { job_id := job_id, email := req.email, meeting_url := "zoom:" ++ req.meeting_id
        status := "pending", params := some req.dict, save_dir := out_dir }
    let jobs1 := jobs ++ [job]
    let jobs2 := updateOne jobs1 job_id
      (fun j => { j with status := "running", started_at := some now })
    { response := .ok { message := "Zoom bot started in background", job_id := job_id }
      jobs := jobs2, background := [job_id] }

/-- Outcome of a cancel endpoint: HTTP result, registry state, jobs
collection. -/
structure CancelOutcome where
  response : Except HTTPException String
  manager : JobManager
  jobs : JobsState
  deriving Repr

/-- `cancel_meeting_bot` (`POST /bot/cancel/{job_id}`; the Teams and Zoom
cancel endpoints are textually identical): `job_manager.cancel(job_id)`; on
`True`, set the Job to `cancelled` with `finished_at = datetime.utcnow()` and
return a message; else `HTTPException(404)`. -/
def cancel_meeting_bot (now : Int) (m : JobManager) (jobs : JobsState)
    (job_id : String) : CancelOutcome :=
  let r := m.cancel job_id
  if r.found then
    { response := .ok ("Job " ++ job_id ++ " cancelled")
      manager := r.state
      jobs := updateOne jobs job_id
        (fun j => { j with status := "cancelled", finished_at := some now }) }
  else
    { response := .error { status_code := 404, detail := "Job not found or already finished" }
      manager := r.state, jobs := jobs }

/-- The final database write of `run_meeting_bot_threaded`
(`update_status_and_transcript_sync`, scheduled onto the main event loop via
`anyio.from_thread.run`; `_run_zoom_bot_threaded` and `run_teams_bot_threaded`
are textually identical): after `proc.wait()` returns, unconditionally
`$set` `status` to `finished`/`error` by exit code, `finished_at` to the
current UTC time, and `transcript`. -/
def completion_update (jobs : JobsState) (job_id : String) (returncode : Int)
    (now : Int) (transcript : String) : JobsState :=
  updateOne jobs job_id (fun j =>
    { j with status := if returncode == 0 then "finished" else "error"
             finished_at := some now, transcript := some transcript })

/-- Response body of a status endpoint. -/
structure StatusResponse where
  job_id : String
  status : String
  deriving Repr, DecidableEq

/-- `job_status` (`GET /bot/status/{job_id}`): a plain 200 response in both
branches — the return type carries no `HTTPException`. -/
def job_status (jobs : JobsState) (job_id : String) : StatusResponse :=
  match find_one jobs job_id with
  | none => { job_id := job_id, status := "not_found" }
  | some job => { job_id := job_id, status := job.status }

/-- `teams_bot_status` (`GET /teamsbot/status/{job_id}`). -/
def teams_bot_status (jobs : JobsState) (job_id : String) : StatusResponse :=
  match find_one jobs job_id with
  | none => { job_id := job_id, status := "not_found" }
  | some job => { job_id := job_id, status := job.status }

/-- `zoombot_status` (`GET /zoombot/status/{job_id}`):
`job.status if job else "not_found"`. -/
def zoombot_status (jobs : JobsState) (job_id : String) : StatusResponse :=
  { job_id := job_id
    status := match find_one jobs job_id with
      | some job => job.status
      | none => "not_found" }

/-- The five status values any code path ever stores in a Job record. -/
def storedStatuses : List String := ["pending", "running", "finished", "error", "cancelled"]

/-- Invariant: every persisted Job carries one of the five stored statuses. -/
def JobsInv (jobs : JobsState) : Prop :=
  ∀ j ∈ jobs, j.status ∈ storedStatuses

/-! ## A concrete cancellation race

The scenario behind the claim about terminal statuses: a job is started, its
worker spawned, the cancel endpoint terminates the worker and marks the Job
`cancelled`, and then the still-running background task observes the worker's
(nonzero) exit and performs its unconditional completion update. -/

/-- A concrete Google Meet start request. -/
def raceReq : BotJobRequest :=
  { email := "a@b.com", meeting_url := "https://meet.google.com/abc-defg-hij"
    duration := 120, interval := 10, save_dir := "storage", window_width := 1280
    window_height := 720, leave_if_empty_secs := 30, start_time := none
    headless := true }

/-- The jobs collection right after `POST /bot/start` returns, at UTC second
0, with fresh job id `"j1"`. -/
def raceJobs0 : JobsState := (start_meeting_bot 0 "j1" raceReq []).jobs

/-- The persisted Job as it stands when the start call returns. -/
def raceRunningJob : Job :=
  { job_id := "j1", email := "a@b.com"
    meeting_url := "https://meet.google.com/abc-defg-hij", status := "running"
    started_at := some 0, finished_at := none, params := some raceReq.dict
    save_dir := pathJoin "storage" "meeting_j1" }

/-- The registry after the background task ran `subprocess.Popen` and
`job_manager.add("j1", proc)`; the worker is still running. -/
def raceManager : JobManager :=
  JobManager.add { jobs := [], cancelled := [] } "j1" { exited := false }

/-- `POST /bot/cancel/j1` at UTC second 1: terminates the worker and marks
the Job `cancelled` with `finished_at = 1`. -/
def raceCancel : CancelOutcome := cancel_meeting_bot 1 raceManager raceJobs0 "j1"

/-- The background task resumes once the terminated worker exits (returncode
-15) and performs its unconditional status/transcript write at UTC second 2. -/
def raceFinal : JobsState :=
  completion_update raceCancel.jobs "j1" (-15) 2 "No audio file found."

/-! ## Helper lemmas -/

theorem find?_append_none {α : Type} (p : α → Bool) (l1 l2 : List α)
    (h : l1.find? p = none) : (l1 ++ l2).find? p = l2.find? p := by
  induction l1 with
  | nil => simp
  | cons a rest ih =>
    rcases hpa : p a with _ | _
    · rw [List.cons_append, List.find?_cons_of_neg _ (by simp [hpa])]
      rw [List.find?_cons_of_neg _ (by simp [hpa])] at h
      exact ih h
    · rw [List.find?_cons_of_pos _ hpa] at h
      exact absurd h (by simp)

theorem filter_eq_nil_of_find?_none {α : Type} (p : α → Bool) (l : List α)
    (h : l.find? p = none) : l.filter p = [] := by
  rw [List.filter_eq_nil_iff]
  exact fun a ha => by simpa using List.find?_eq_none.mp h a ha

theorem find?_filter_key_ne {β : Type} (l : List (String × β)) (k : String) :
    (l.filter (fun p => p.1 ≠ k)).find? (fun p => p.1 == k) = none := by
  rw [List.find?_eq_none]
  intro x hx
  have hne := (List.mem_filter.mp hx).2
  simp only [ne_eq, decide_eq_true_eq] at hne
  simpa using hne

/-- Writing a file then reading it back at the same path yields the bytes. -/
theorem fsRead_fsWrite_self (fs : FileSystem) (path : String) (content : List Nat) :
    fsRead (fsWrite fs path content) path = some content := by
  unfold fsRead fsWrite
  rw [find?_append_none _ _ _ (find?_filter_key_ne fs path)]
  simp

/-- A job id that matches no stored job is found after appending a job that
carries it. -/
theorem find_one_append_self (jobs : JobsState) (j : Job)
    (h : find_one jobs j.job_id = none) : find_one (jobs ++ [j]) j.job_id = some j := by
  unfold find_one at h ⊢
  rw [find?_append_none _ _ _ h]
  simp

/-- `updateOne` rewrites the (unique) matching job in place. -/
theorem find_one_updateOne_some (jobs : JobsState) (job_id : String) (f : Job → Job)
    (j : Job) (hf : ∀ x, (f x).job_id = x.job_id)
    (h : find_one jobs job_id = some j) :
    find_one (updateOne jobs job_id f) job_id = some (f j) := by
  induction jobs with
  | nil => simp [find_one] at h
  | cons a rest ih =>
    rcases hc : (a.job_id == job_id) with _ | _
    · unfold find_one at h
      rw [List.find?_cons_of_neg _ (by simp [hc])] at h
      unfold updateOne
      rw [hc]
      simp only [Bool.false_eq_true, if_false]
      unfold find_one
      rw [List.find?_cons_of_neg _ (by simp [hc])]
      exact ih h
    · unfold find_one at h
      rw [List.find?_cons_of_pos _ (by simp [hc])] at h
      unfold updateOne
      rw [hc]
      simp only [if_true]
      unfold find_one
      rw [List.find?_cons_of_pos _ (by simp [hf, hc])]
      rw [Option.some_inj.mp h]

/-- Every member of `updateOne jobs job_id f` is an original member or the
image under `f` of one. -/
theorem mem_updateOne (jobs : JobsState) (job_id : String) (f : Job → Job) (j : Job)
    (h : j ∈ updateOne jobs job_id f) : j ∈ jobs ∨ ∃ j0, j0 ∈ jobs ∧ j = f j0 := by
  induction jobs with
  | nil => simp [updateOne] at h
  | cons a rest ih =>
    unfold updateOne at h
    rcases hc : (a.job_id == job_id) with _ | _
    · rw [hc] at h
      simp only [Bool.false_eq_true, if_false] at h
      rcases List.mem_cons.mp h with h1 | h1
      · exact Or.inl (h1 ▸ List.mem_cons_self a rest)
      · rcases ih h1 with h2 | ⟨j0, hj0, he⟩
        · exact Or.inl (List.mem_cons_of_mem a h2)
        · exact Or.inr ⟨j0, List.mem_cons_of_mem a hj0, he⟩
    · rw [hc] at h
      simp only [if_true] at h
      rcases List.mem_cons.mp h with h1 | h1
      · exact Or.inr ⟨a, List.mem_cons_self a rest, h1⟩
      · exact Or.inl (List.mem_cons_of_mem a h1)

/-! ## Claim C4 — transcription client -/

/-- Claim C4: `transcribe_audio` never raises — it is a total function into
`String` — and returns the fixed placeholder when no API key is configured,
the response body trimmed of surrounding whitespace on success, an
`API error <status>: <body>` string on a non-2xx response, and a
`Transcription error: <details>` string when the call itself fails. -/
theorem transcribe_audio_total_shapes (api_key : Option String) (call : RequestOutcome) :
    (api_key = none → transcribe_audio api_key call = "OpenAI API key not provided") ∧
    (∀ k, api_key = some k → k ≠ "" → ∀ body, call = .ok 200 body →
      transcribe_audio api_key call = pyStrip body) ∧
    (∀ k, api_key = some k → k ≠ "" → ∀ s body, call = .ok s body →
      ¬(200 ≤ s ∧ s < 300) →
      transcribe_audio api_key call = "API error " ++ toString s ++ ": " ++ body) ∧
    (∀ k, api_key = some k → k ≠ "" → ∀ e, call = .exn e →
      transcribe_audio api_key call = "Transcription error: " ++ e) := by
  refine ⟨?_, ?_, ?_, ?_⟩
  · intro h; subst h; rfl
  · intro k hk hke body hcall
    subst hk; subst hcall
    simp [transcribe_audio, hke]
  · intro k hk hke s body hcall h2xx
    subst hk; subst hcall
    have hs : s ≠ 200 := by
      intro hs; subst hs; exact h2xx (by omega)
    simp [transcribe_audio, hke, hs]
  · intro k hk hke e hcall
    subst hk; subst hcall
    simp [transcribe_audio, hke]

/-- Witness for C4 at concrete inputs. -/
theorem transcribe_audio_total_shapes_witness :
    transcribe_audio none (.exn "boom") = "OpenAI API key not provided" ∧
    transcribe_audio (some "sk-test") (.ok 200 "  hello  ") = "hello" ∧
    transcribe_audio (some "sk-test") (.ok 404 "nope") = "API error 404: nope" ∧
    transcribe_audio (some "sk-test") (.exn "No such file or directory") =
      "Transcription error: No such file or directory" := by
  refine ⟨?_, ?_, ?_, ?_⟩
  · exact (transcribe_audio_total_shapes none (.exn "boom")).1 rfl
  · rw [(transcribe_audio_total_shapes (some "sk-test") (.ok 200 "  hello  ")).2.1
      "sk-test" rfl (by decide) "  hello  " rfl]
    rfl
  · exact (transcribe_audio_total_shapes (some "sk-test") (.ok 404 "nope")).2.2.1
      "sk-test" rfl (by decide) 404 "nope" rfl (by omega)
  · exact (transcribe_audio_total_shapes (some "sk-test")
      (.exn "No such file or directory")).2.2.2
      "sk-test" rfl (by decide) "No such file or directory" rfl

/-! ## Claim C5 — in-process job registry -/

/-- Claim C5: `JobManager.cancel` removes the handle from the live map,
terminates the underlying process exactly when it is still running,
unconditionally records the id as cancelled, and returns true exactly when a
live handle was found; ids are never removed from the cancelled set (by
`cancel` or `add`); `get_status` answers `cancelled` with priority, else
`not_found` when untracked, else `running`/`finished` by whether the process
has exited. -/
theorem job_manager_contract (m : JobManager) (job_id : String) :
    ((m.cancel job_id).found = (lookupProc m.jobs job_id).isSome) ∧
    (lookupProc (m.cancel job_id).state.jobs job_id = none) ∧
    (job_id ∈ (m.cancel job_id).state.cancelled) ∧
    ((m.cancel job_id).terminated = true ↔
      ∃ p, lookupProc m.jobs job_id = some p ∧ p.exited = false) ∧
    (∀ x ∈ m.cancelled, x ∈ (m.cancel job_id).state.cancelled) ∧
    (∀ pid proc, ∀ x ∈ m.cancelled, x ∈ (m.add pid proc).cancelled) ∧
    (job_id ∈ m.cancelled → m.get_status job_id = "cancelled") ∧
    (job_id ∉ m.cancelled → lookupProc m.jobs job_id = none →
      m.get_status job_id = "not_found") ∧
    (∀ p, job_id ∉ m.cancelled → lookupProc m.jobs job_id = some p →
      m.get_status job_id = (if p.exited then "finished" else "running")) := by
  refine ⟨rfl, ?_, ?_, ?_, ?_, ?_, ?_, ?_, ?_⟩
  · show lookupProc (m.jobs.filter fun p => p.1 ≠ job_id) job_id = none
    unfold lookupProc
    rw [find?_filter_key_ne]
    rfl
  · show job_id ∈ (if job_id ∈ m.cancelled then m.cancelled else m.cancelled ++ [job_id])
    split
    · assumption
    · simp
  · show (match lookupProc m.jobs job_id with
        | some p => !p.exited
        | none => false) = true ↔ _
    rcases h : lookupProc m.jobs job_id with _ | p
    · simp
    · rcases hp : p.exited with _ | _ <;> simp [hp]
  · intro x hx
    show x ∈ (if job_id ∈ m.cancelled then m.cancelled else m.cancelled ++ [job_id])
    split
    · exact hx
    · exact List.mem_append_left _ hx
  · intro pid proc x hx
    exact hx
  · intro h
    unfold JobManager.get_status
    rw [if_pos h]
  · intro h hl
    unfold JobManager.get_status
    rw [if_neg h, hl]
  · intro p h hl
    unfold JobManager.get_status
    rw [if_neg h, hl]
    rcases hp : p.exited with _ | _ <;> simp [hp]

/-- Witness for C5: a running tracked job, a cancelled id, an untracked id. -/
theorem job_manager_contract_witness :
    (JobManager.cancel { jobs := [("a", { exited := false })], cancelled := [] } "a").found
        = true ∧
    JobManager.get_status { jobs := [("a", { exited := false })], cancelled := ["b"] } "b"
        = "cancelled" ∧
    JobManager.get_status { jobs := [("a", { exited := false })], cancelled := ["b"] } "c"
        = "not_found" ∧
    JobManager.get_status { jobs := [("a", { exited := false })], cancelled := ["b"] } "a"
        = "running" := by
  refine ⟨?_, ?_, ?_, ?_⟩
  · rw [(job_manager_contract { jobs := [("a", { exited := false })], cancelled := [] } "a").1]
    rfl
  · exact (job_manager_contract
      { jobs := [("a", { exited := false })], cancelled := ["b"] } "b").2.2.2.2.2.2.1
      (by decide)
  · exact (job_manager_contract
      { jobs := [("a", { exited := false })], cancelled := ["b"] } "c").2.2.2.2.2.2.2.1
      (by decide) rfl
  · exact (job_manager_contract
      { jobs := [("a", { exited := false })], cancelled := ["b"] } "a").2.2.2.2.2.2.2.2
      { exited := false } (by decide) rfl

/-! ## Claim C7 — upload for an unknown email -/

/-- Claim C7: when the email resolves to no registered user, `upload_artifact`
fails with 404 NotFound and leaves both the artifact catalog and the
filesystem exactly as they were. -/
theorem upload_artifact_unknown_email (users : UsersState) (st : ArtifactsState)
    (fs : FileSystem) (now : Int)
    (email meeting_id artifact_type file_name : String) (file_bytes : List Nat)
    (habsent : users.users.find? (fun u => u.email == email) = none) :
    upload_artifact users st fs now email meeting_id artifact_type file_name file_bytes =
      (.error { status_code := 404, detail := "User not found" }, st, fs) := by
  unfold upload_artifact
  rw [habsent]

/-- Witness for C7: one registered user, an unmatched email. -/
theorem upload_artifact_unknown_email_witness :
    upload_artifact
      { users := [{ id := 7, email := "known@example.com", full_name := "K" }], next_id := 8 }
      { artifacts := [], next_id := 0 } [] 5 "ghost@example.com" "m1" "screenshot"
      "shot.png" [1, 2, 3] =
      (.error { status_code := 404, detail := "User not found" },
        { artifacts := [], next_id := 0 }, []) :=
  upload_artifact_unknown_email
    { users := [{ id := 7, email := "known@example.com", full_name := "K" }], next_id := 8 }
    { artifacts := [], next_id := 0 } [] 5 "ghost@example.com" "m1" "screenshot"
    "shot.png" [1, 2, 3] (by decide)

/-! ## Claim C8 — save/resolve path agreement -/

/-- Claim C8: `save_file` writes the bytes (text encoded as UTF-8,
overwriting) at the path `get_file_path` computes for the same four
arguments and returns exactly that string; a successful upload stores that
exact string as the catalog row's `file_path`; saving twice under identical
arguments targets the same single path. -/
theorem save_file_get_file_path_agree (fs : FileSystem)
    (user_id meeting_id artifact_type file_name : String) (content : FileContent) :
    (save_file fs user_id meeting_id artifact_type file_name content).1 =
      get_file_path user_id meeting_id artifact_type file_name ∧
    fsRead (save_file fs user_id meeting_id artifact_type file_name content).2
        (get_file_path user_id meeting_id artifact_type file_name) =
      some (match content with
        | .bytes b => b
        | .text s => encodeUTF8 s) ∧
    (∀ fs2 c2, (save_file fs2 user_id meeting_id artifact_type file_name c2).1 =
      (save_file fs user_id meeting_id artifact_type file_name content).1) ∧
    (∀ (users : UsersState) (st : ArtifactsState) (now : Int) (email : String)
        (file_bytes : List Nat) (user : User),
      users.users.find? (fun x => x.email == email) = some user →
      artifact_type ∈ artifactTypeValues →
      upload_artifact users st fs now email meeting_id artifact_type file_name file_bytes =
        (.ok { ok := true
               file_path := get_file_path (toString user.id) meeting_id artifact_type file_name
               artifact_id := st.next_id },
          { artifacts := st.artifacts ++
              [{ id := st.next_id, user := user.id, meeting_id := meeting_id
                 artifact_type := artifact_type
                 file_path := get_file_path (toString user.id) meeting_id artifact_type file_name
                 created_at := now }]
            next_id := st.next_id + 1 },
          fsWrite fs (get_file_path (toString user.id) meeting_id artifact_type file_name)
            file_bytes)) := by
  refine ⟨rfl, ?_, fun fs2 c2 => rfl, ?_⟩
  · show fsRead (fsWrite fs _ _) _ = _
    rcases content with b | s
    · exact fsRead_fsWrite_self fs _ b
    · exact fsRead_fsWrite_self fs _ (encodeUTF8 s)
  · intro users st now email file_bytes user hfind htype
    unfold upload_artifact
    rw [hfind]
    simp only [save_file]
    rw [if_pos htype]
    rfl

/-- Witness for C8 at concrete inputs (the upload conjunct has hypotheses). -/
theorem save_file_get_file_path_agree_witness :
    upload_artifact
      { users := [{ id := 7, email := "u@example.com", full_name := "U" }], next_id := 8 }
      { artifacts := [], next_id := 3 } [] 5 "u@example.com" "m1" "screenshot"
      "shot.png" [9, 9] =
      (.ok { ok := true, file_path := "/backend/storage/7/m1/screenshot/shot.png"
             artifact_id := 3 },
        { artifacts := [{ id := 3, user := 7, meeting_id := "m1"
                          artifact_type := "screenshot"
                          file_path := "/backend/storage/7/m1/screenshot/shot.png"
                          created_at := 5 }]
          next_id := 4 },
        [("/backend/storage/7/m1/screenshot/shot.png", [9, 9])]) := by
  have h := (save_file_get_file_path_agree [] "7" "m1" "screenshot" "shot.png"
      (.bytes [9, 9])).2.2.2
    { users := [{ id := 7, email := "u@example.com", full_name := "U" }], next_id := 8 }
    { artifacts := [], next_id := 3 } 5 "u@example.com" [9, 9]
    { id := 7, email := "u@example.com", full_name := "U" } (by decide) (by decide)
  exact h

/-! ## Claim C6 — duplicate registration -/

/-- Claim C6: the first registration of an email succeeds, inserts exactly one
User, and returns that user's store-assigned id and email; repeating it fails
with AlreadyExists (400) on the second call and inserts no second User; a
malformed email fails input validation before any lookup or insert. -/
theorem register_user_duplicate (st : UsersState) (email full_name full_name2 : String)
    (hvalid : isValidEmail email = true)
    (habsent : st.users.find? (fun u => u.email == email) = none) :
    register_user st email full_name =
      (.ok { id := st.next_id, email := email },
        { users := st.users ++ [{ id := st.next_id, email := email, full_name := full_name }]
          next_id := st.next_id + 1 }) ∧
    ((st.users ++ [({ id := st.next_id, email := email, full_name := full_name } : User)]).filter
        (fun u => u.email == email)).length = 1 ∧
    register_user
        { users := st.users ++ [{ id := st.next_id, email := email, full_name := full_name }]
          next_id := st.next_id + 1 } email full_name2 =
      (.error { status_code := 400, detail := "User already exists" },
        { users := st.users ++ [{ id := st.next_id, email := email, full_name := full_name }]
          next_id := st.next_id + 1 }) ∧
    (∀ bad other_name, isValidEmail bad = false →
      register_user st bad other_name =
        (.error { status_code := 422, detail := "value is not a valid email address" }, st)) := by
  have hbeq : (email == email) = true := by simp
  refine ⟨?_, ?_, ?_, ?_⟩
  · unfold register_user
    rw [hvalid, habsent]
    rfl
  · rw [List.filter_append, filter_eq_nil_of_find?_none _ _ habsent]
    simp
  · unfold register_user
    rw [hvalid]
    simp only [Bool.not_true, Bool.false_eq_true, if_false]
    rw [find?_append_none _ _ _ habsent]
    rw [List.find?_cons_of_pos _ (by simp)]
  · intro bad other_name hbad
    unfold register_user
    rw [hbad]
    rfl

/-- Witness for C6: register, re-register, and a malformed email, concretely. -/
theorem register_user_duplicate_witness :
    register_user { users := [], next_id := 0 } "alice@example.com" "Alice" =
      (.ok { id := 0, email := "alice@example.com" },
        { users := [{ id := 0, email := "alice@example.com", full_name := "Alice" }]
          next_id := 1 }) ∧
    register_user
        { users := [{ id := 0, email := "alice@example.com", full_name := "Alice" }]
          next_id := 1 } "alice@example.com" "Imposter" =
      (.error { status_code := 400, detail := "User already exists" },
        { users := [{ id := 0, email := "alice@example.com", full_name := "Alice" }]
          next_id := 1 }) ∧
    register_user { users := [], next_id := 0 } "not-an-email" "X" =
      (.error { status_code := 422, detail := "value is not a valid email address" },
        { users := [], next_id := 0 }) := by
  have h := register_user_duplicate { users := [], next_id := 0 } "alice@example.com"
    "Alice" "Imposter" (by decide) rfl
  exact ⟨h.1, h.2.2.1, h.2.2.2 "not-an-email" "X" (by decide)⟩

/-! ## Claim C2 — past start time is rejected without an insert -/

/-- Claim C2: on each of the three Start endpoints, a `start_time` that
parses (naive timestamps read in Asia/Karachi) to an instant strictly before
the current UTC time fails with HTTP 400 and inserts no Job: the persisted
job set is returned unchanged and no background task is scheduled. -/
theorem start_past_time_rejected (now : Int) (job_id : String) (jobs : JobsState)
    (dt : ParsedDateTime) (hpast : dt.toUtc < now) :
    (∀ req : BotJobRequest, req.start_time = some dt →
      start_meeting_bot now job_id req jobs =
        { response := .error { status_code := 400, detail := "Scheduled time is in the past" }
          jobs := jobs, background := [] }) ∧
    (∀ req : TeamsBotJobRequest, req.start_time = some dt →
      start_teams_bot now job_id req jobs =
        { response := .error { status_code := 400, detail := "Scheduled time is in the past" }
          jobs := jobs, background := [] }) ∧
    (∀ req : ZoomBotJobRequest, req.start_time = some dt →
      start_zoombot now job_id req jobs =
        { response := .error { status_code := 400, detail := "Scheduled time is in the past" }
          jobs := jobs, background := [] }) := by
  refine ⟨?_, ?_, ?_⟩
  · intro req hst
    unfold start_meeting_bot
    rw [hst]
    simp [hpast]
  · intro req hst
    unfold start_teams_bot
    rw [hst]
    simp [hpast]
  · intro req hst
    unfold start_zoombot
    rw [hst]
    simp [hpast]

/-- Witness for C2: a naive 2024-01-01-style instant against a later now. -/
theorem start_past_time_rejected_witness :
    start_meeting_bot 1000000 "j1"
      { email := "a@b.com", meeting_url := "https://meet.google.com/x", duration := 120
        interval := 10, save_dir := "storage", window_width := 1280, window_height := 720
        leave_if_empty_secs := 30, start_time := some { wall_seconds := 0, tz_offset := none }
        headless := true } [] =
      { response := .error { status_code := 400, detail := "Scheduled time is in the past" }
        jobs := [], background := [] } :=
  (start_past_time_rejected 1000000 "j1" [] { wall_seconds := 0, tz_offset := none }
    (by decide)).1
    { email := "a@b.com", meeting_url := "https://meet.google.com/x", duration := 120
      interval := 10, save_dir := "storage", window_width := 1280, window_height := 720
      leave_if_empty_secs := 30, start_time := some { wall_seconds := 0, tz_offset := none }
      headless := true } rfl

/-! ## Claim C3 — valid start persists `running` before background work -/

/-- Claim C3: a valid start request (no `start_time`, or one not in the past)
returns HTTP 200 with `{message, job_id}` for the fresh job id, and the
persisted Job at the moment the call returns — before any scheduled
background task has run — has status `running`, `started_at` set to the
current UTC time, and `finished_at` absent.  This holds on all three
platform Start endpoints. -/
theorem start_valid_running_persisted (now : Int) (job_id : String) (jobs : JobsState)
    (hfresh : find_one jobs job_id = none) :
    (∀ req : BotJobRequest,
      (req.start_time = none ∨ ∃ dt, req.start_time = some dt ∧ ¬dt.toUtc < now) →
      (start_meeting_bot now job_id req jobs).response =
        .ok { message := "Bot started in background", job_id := job_id } ∧
      (start_meeting_bot now job_id req jobs).background = [job_id] ∧
      ∃ j, find_one (start_meeting_bot now job_id req jobs).jobs job_id = some j ∧
        j.status = "running" ∧ j.started_at = some now ∧ j.finished_at = none) ∧
    (∀ req : TeamsBotJobRequest,
      (req.start_time = none ∨ ∃ dt, req.start_time = some dt ∧ ¬dt.toUtc < now) →
      (start_teams_bot now job_id req jobs).response =
        .ok { message := "Teams bot started in background", job_id := job_id } ∧
      (start_teams_bot now job_id req jobs).background = [job_id] ∧
      ∃ j, find_one (start_teams_bot now job_id req jobs).jobs job_id = some j ∧
        j.status = "running" ∧ j.started_at = some now ∧ j.finished_at = none) ∧
    (∀ req : ZoomBotJobRequest,
      (req.start_time = none ∨ ∃ dt, req.start_time = some dt ∧ ¬dt.toUtc < now) →
      (start_zoombot now job_id req jobs).response =
        .ok { message := "Zoom bot started in background", job_id := job_id } ∧
      (start_zoombot now job_id req jobs).background = [job_id] ∧
      ∃ j, find_one (start_zoombot now job_id req jobs).jobs job_id = some j ∧
        j.status = "running" ∧ j.started_at = some now ∧ j.finished_at = none) := by
  refine ⟨?_, ?_, ?_⟩
  · intro req hvalid
    have hpast : (match req.start_time with
        | some start_dt => decide (start_dt.toUtc < now)
        | none => false) = false := by
      rcases hvalid with h | ⟨dt, hdt, hn⟩
      · rw [h]
      · rw [hdt]; simpa using hn
    unfold start_meeting_bot
    rw [hpast, if_neg Bool.false_ne_true]
    refine ⟨rfl, rfl, ?_⟩
    have hupd := find_one_updateOne_some _ job_id
      (fun j => { j with status := "running", started_at := some now }) _ (fun x => rfl)
      (find_one_append_self jobs
        { job_id := job_id, email := req.email, meeting_url := req.meeting_url
          status := "pending", params := some req.dict
          save_dir := pathJoin req.save_dir ("meeting_" ++ job_id) } hfresh)
    exact ⟨_, hupd, rfl, rfl, rfl⟩
  · intro req hvalid
    have hpast : (match req.start_time with
        | some start_dt => decide (start_dt.toUtc < now)
        | none => false) = false := by
      rcases hvalid with h | ⟨dt, hdt, hn⟩
      · rw [h]
      · rw [hdt]; simpa using hn
    unfold start_teams_bot
    rw [hpast, if_neg Bool.false_ne_true]
    refine ⟨rfl, rfl, ?_⟩
    have hupd := find_one_updateOne_some _ job_id
      (fun j => { j with status := "running", started_at := some now }) _ (fun x => rfl)
      (find_one_append_self jobs
        { job_id := job_id, email := req.email, meeting_url := req.meeting_url
          status := "pending", params := some req.dict
          save_dir := pathJoin req.save_dir ("meeting_" ++ job_id) } hfresh)
    exact ⟨_, hupd, rfl, rfl, rfl⟩
  · intro req hvalid
    have hpast : (match req.start_time with
        | some dt => decide (dt.toUtc < now)
        | none => false) = false := by
      rcases hvalid with h | ⟨dt, hdt, hn⟩
      · rw [h]
      · rw [hdt]; simpa using hn
    unfold start_zoombot
    rw [hpast, if_neg Bool.false_ne_true]
    refine ⟨rfl, rfl, ?_⟩
    have hupd := find_one_updateOne_some _ job_id
      (fun j => { j with status := "running", started_at := some now }) _ (fun x => rfl)
      (find_one_append_self jobs
        { job_id := job_id, email := req.email, meeting_url := "zoom:" ++ req.meeting_id
          status := "pending", params := some req.dict
          save_dir := pathJoin req.save_dir ("meeting_" ++ job_id) } hfresh)
    exact ⟨_, hupd, rfl, rfl, rfl⟩

/-- Witness for C3: a concrete start with no `start_time` on an empty store. -/
theorem start_valid_running_persisted_witness :
    (start_meeting_bot 42 "j1"
      { email := "a@b.com", meeting_url := "https://meet.google.com/x", duration := 120
        interval := 10, save_dir := "storage", window_width := 1280, window_height := 720
        leave_if_empty_secs := 30, start_time := none, headless := true } []).response =
      .ok { message := "Bot started in background", job_id := "j1" } ∧
    ∃ j, find_one (start_meeting_bot 42 "j1"
      { email := "a@b.com", meeting_url := "https://meet.google.com/x", duration := 120
        interval := 10, save_dir := "storage", window_width := 1280, window_height := 720
        leave_if_empty_secs := 30, start_time := none, headless := true } []).jobs "j1" =
        some j ∧ j.status = "running" ∧ j.started_at = some 42 ∧ j.finished_at = none := by
  have h := (start_valid_running_persisted 42 "j1" [] rfl).1
    { email := "a@b.com", meeting_url := "https://meet.google.com/x", duration := 120
      interval := 10, save_dir := "storage", window_width := 1280, window_height := 720
      leave_if_empty_secs := 30, start_time := none, headless := true } (Or.inl rfl)
  exact ⟨h.1, h.2.2⟩

/-! ## Claim C9 — synthetic `not_found` -/

theorem JobsInv_updateOne (jobs : JobsState) (job_id : String) (f : Job → Job)
    (hinv : JobsInv jobs) (hf : ∀ x, (f x).status ∈ storedStatuses) :
    JobsInv (updateOne jobs job_id f) := by
  intro j hj
  rcases mem_updateOne _ _ _ _ hj with h | ⟨j0, hj0, he⟩
  · exact hinv j h
  · rw [he]; exact hf j0

theorem JobsInv_append (jobs : JobsState) (j : Job) (hinv : JobsInv jobs)
    (hj : j.status ∈ storedStatuses) : JobsInv (jobs ++ [j]) := by
  intro x hx
  rcases List.mem_append.mp hx with h | h
  · exact hinv x h
  · rw [List.mem_singleton.mp h]; exact hj

/-- Claim C9: for an unknown job id each of the three Status endpoints
returns a plain success response `{job_id, status := "not_found"}` (the
return type carries no `HTTPException`, so no error is ever produced), and
`not_found` is synthesized in the response only: every write path — the
three start endpoints, the cancel endpoint, and the background completion
update — preserves the invariant that stored statuses lie in
`{pending, running, finished, error, cancelled}`. -/
theorem status_not_found_synthetic (jobs : JobsState) (job_id : String) :
    (find_one jobs job_id = none →
      job_status jobs job_id = { job_id := job_id, status := "not_found" } ∧
      teams_bot_status jobs job_id = { job_id := job_id, status := "not_found" } ∧
      zoombot_status jobs job_id = { job_id := job_id, status := "not_found" }) ∧
    ("not_found" ∉ storedStatuses) ∧
    (JobsInv jobs →
      (∀ j ∈ jobs, j.status ≠ "not_found") ∧
      (∀ now id req, JobsInv (start_meeting_bot now id req jobs).jobs) ∧
      (∀ now id req, JobsInv (start_teams_bot now id req jobs).jobs) ∧
      (∀ now id req, JobsInv (start_zoombot now id req jobs).jobs) ∧
      (∀ now m id, JobsInv (cancel_meeting_bot now m jobs id).jobs) ∧
      (∀ id rc now tr, JobsInv (completion_update jobs id rc now tr))) := by
  refine ⟨?_, by decide, ?_⟩
  · intro h
    unfold job_status teams_bot_status zoombot_status
    rw [h]
    exact ⟨rfl, rfl, rfl⟩
  · intro hinv
    refine ⟨?_, ?_, ?_, ?_, ?_, ?_⟩
    · intro j hj heq
      have := hinv j hj
      rw [heq] at this
      exact absurd this (by decide)
    · intro now id req
      unfold start_meeting_bot
      split <;> dsimp only <;> split <;>
        first
          | exact hinv
          | exact JobsInv_updateOne _ _ _
              (JobsInv_append _ _ hinv (by simp [storedStatuses]))
              (fun x => by simp [storedStatuses])
    · intro now id req
      unfold start_teams_bot
      split <;> dsimp only <;> split <;>
        first
          | exact hinv
          | exact JobsInv_updateOne _ _ _
              (JobsInv_append _ _ hinv (by simp [storedStatuses]))
              (fun x => by simp [storedStatuses])
    · intro now id req
      unfold start_zoombot
      split <;> dsimp only <;> split <;>
        first
          | exact hinv
          | exact JobsInv_updateOne _ _ _
              (JobsInv_append _ _ hinv (by simp [storedStatuses]))
              (fun x => by simp [storedStatuses])
    · intro now m id
      unfold cancel_meeting_bot
      dsimp only
      split
      · exact JobsInv_updateOne _ _ _ hinv (fun x => by simp [storedStatuses])
      · exact hinv
    · intro id rc now tr
      unfold completion_update
      refine JobsInv_updateOne _ _ _ hinv (fun x => ?_)
      by_cases h : (rc == 0) = true <;> simp [h, storedStatuses]

/-- Witness for C9: an unknown id against an empty store. -/
theorem status_not_found_synthetic_witness :
    job_status [] "ghost" = { job_id := "ghost", status := "not_found" } ∧
    teams_bot_status [] "ghost" = { job_id := "ghost", status := "not_found" } ∧
    zoombot_status [] "ghost" = { job_id := "ghost", status := "not_found" } ∧
    JobsInv (completion_update [] "ghost" 1 2 "t") := by
  have h := status_not_found_synthetic [] "ghost"
  exact ⟨(h.1 rfl).1, (h.1 rfl).2.1, (h.1 rfl).2.2,
    (h.2.2 (fun j hj => absurd hj (List.not_mem_nil j))).2.2.2.2.2 "ghost" 1 2 "t"⟩

/-! ## Claim C10 — type-invalid upload is not atomic -/

/-- Claim C10: when the email resolves to a registered user but the artifact
type lies outside the four admitted values, the upload fails at `Artifact`
construction and inserts no catalog row — yet the file bytes were already
written at the resolved path, so the failed call leaves the file on the
filesystem with no catalog entry. -/
theorem upload_invalid_type_nonatomic (users : UsersState) (st : ArtifactsState)
    (fs : FileSystem) (now : Int)
    (email meeting_id artifact_type file_name : String) (file_bytes : List Nat)
    (user : User)
    (hfind : users.users.find? (fun u => u.email == email) = some user)
    (htype : artifact_type ∉ artifactTypeValues) :
    upload_artifact users st fs now email meeting_id artifact_type file_name file_bytes =
      (.error { status_code := 500, detail := "Internal Server Error" }, st,
        fsWrite fs (get_file_path (toString user.id) meeting_id artifact_type file_name)
          file_bytes) ∧
    fsRead (upload_artifact users st fs now email meeting_id artifact_type file_name
        file_bytes).2.2
      (get_file_path (toString user.id) meeting_id artifact_type file_name) =
        some file_bytes := by
  have h1 : upload_artifact users st fs now email meeting_id artifact_type file_name
      file_bytes =
      (.error { status_code := 500, detail := "Internal Server Error" }, st,
        fsWrite fs (get_file_path (toString user.id) meeting_id artifact_type file_name)
          file_bytes) := by
    unfold upload_artifact
    rw [hfind]
    simp only [save_file]
    rw [if_neg htype]
    rfl
  refine ⟨h1, ?_⟩
  rw [h1]
  exact fsRead_fsWrite_self fs _ file_bytes

/-- Witness for C10: a registered user uploading with type `video`. -/
theorem upload_invalid_type_nonatomic_witness :
    upload_artifact
      { users := [{ id := 7, email := "u@example.com", full_name := "U" }], next_id := 8 }
      { artifacts := [], next_id := 3 } [] 5 "u@example.com" "m1" "video" "clip.mp4"
      [4, 2] =
      (.error { status_code := 500, detail := "Internal Server Error" },
        { artifacts := [], next_id := 3 },
        [("/backend/storage/7/m1/video/clip.mp4", [4, 2])]) :=
  (upload_invalid_type_nonatomic
    { users := [{ id := 7, email := "u@example.com", full_name := "U" }], next_id := 8 }
    { artifacts := [], next_id := 3 } [] 5 "u@example.com" "m1" "video" "clip.mp4"
    [4, 2] { id := 7, email := "u@example.com", full_name := "U" } (by decide)
    (by decide)).1

/-! ## Claim C1 — terminal statuses and the completion update -/

/-- Claim C1 counterexample: in the concrete cancellation race, the Cancel
endpoint marks job `j1` `cancelled` with `finished_at = 1`, and the
background task's completion update that runs after the terminated worker
exits then changes the same Job to `error`, rewrites `finished_at`, and
writes the transcript — so a later write does change a cancelled Job,
falsifying the claim as stated. -/
theorem cancelled_job_overwritten_counterexample :
    (find_one raceCancel.jobs "j1").map Job.status = some "cancelled" ∧
    (find_one raceCancel.jobs "j1").map Job.finished_at = some (some 1) ∧
    (find_one raceFinal "j1").map Job.status = some "error" ∧
    (find_one raceFinal "j1").map Job.finished_at = some (some 2) ∧
    (find_one raceFinal "j1").map Job.transcript =
      some (some "No audio file found.") ∧
    ("error" : String) ≠ "cancelled" := by
  exact ⟨rfl, rfl, rfl, rfl, rfl, by decide⟩

/-- Claim C1 (amended): the Cancel endpoint does mark the Job `cancelled`
with a finish timestamp, but the background task's completion update runs
unconditionally once the worker process exits and overwrites the very same
record: status becomes `finished`/`error` by exit code, `finished_at` is
written a second time, and the transcript is stored — the `cancelled`
terminal status is not preserved. -/
theorem completion_overwrites_cancelled (jobs : JobsState) (job_id : String)
    (j : Job) (rc tc tf : Int) (tr : String) (m : JobManager)
    (hfound : (m.cancel job_id).found = true)
    (hfind : find_one jobs job_id = some j) :
    find_one (cancel_meeting_bot tc m jobs job_id).jobs job_id =
      some { j with status := "cancelled", finished_at := some tc } ∧
    find_one (completion_update (cancel_meeting_bot tc m jobs job_id).jobs job_id rc tf tr)
        job_id =
      some { j with
        status := (if rc == 0 then "finished" else "error"),
        finished_at := some tf, transcript := some tr } := by
  have hc : find_one (cancel_meeting_bot tc m jobs job_id).jobs job_id =
      some { j with status := "cancelled", finished_at := some tc } := by
    unfold cancel_meeting_bot
    rw [if_pos hfound]
    exact find_one_updateOne_some _ job_id
      (fun x => { x with status := "cancelled", finished_at := some tc }) _
      (fun x => rfl) hfind
  refine ⟨hc, ?_⟩
  unfold completion_update
  exact find_one_updateOne_some _ job_id
    (fun x => { x with
      status := (if rc == 0 then "finished" else "error"),
      finished_at := some tf, transcript := some tr })
    { j with status := "cancelled", finished_at := some tc }
    (fun x => rfl) hc

/-- Witness for the amended C1, on the concrete race scenario. -/
theorem completion_overwrites_cancelled_witness :
    find_one (completion_update (cancel_meeting_bot 1 raceManager raceJobs0 "j1").jobs
        "j1" (-15) 2 "No audio file found.") "j1" =
      some { raceRunningJob with
        status := "error", finished_at := some 2,
        transcript := some "No audio file found." } := by
  have h := (completion_overwrites_cancelled raceJobs0 "j1" raceRunningJob (-15) 1 2
    "No audio file found." raceManager rfl rfl).2
  exact h

end MinuteMate
